import Mathlib

/-!
Shallow embedding of `flame_components.py` (scalar call path) and verification of
the specification claims about it.

Modelling conventions:
* Python floats are modelled as real numbers (`ℝ`).
* A scalar argument is wrapped by the source into a one-element numpy masked
  array `ma.array([x], mask=isnan([x]))`; a single cell of such an array is
  modelled as `MVal := Option ℝ`, where `none` is a masked (undefined) cell.
  Masked-array arithmetic masks domain errors instead of raising (division by
  zero, log of a non-positive number, sqrt of a negative number, fractional
  power of a negative base, arcsin/arccos outside [-1, 1]).
* Python exceptions raised by the validation code are modelled by `Except PyErr`.
  Passing `None` where the source then evaluates `isnan([None])` raises a numpy
  `TypeError`; this is modelled by `toMasked none = .error (.typeError _)`.
-/

open Real

noncomputable section

/-- Python exceptions raised by the module. -/
inductive PyErr where
  | typeError (msg : String)
  | valueError (msg : String)
  | exception (msg : String)
deriving DecidableEq

/-- One cell of a numpy masked array: `none` is a masked (undefined) element. -/
abbrev MVal := Option ℝ

/-- Masked addition. -/
def madd : MVal → MVal → MVal
  | some a, some b => some (a + b)
  | _, _ => none

/-- Masked subtraction. -/
def msub : MVal → MVal → MVal
  | some a, some b => some (a - b)
  | _, _ => none

/-- Masked multiplication. -/
def mmul : MVal → MVal → MVal
  | some a, some b => some (a * b)
  | _, _ => none

/-- Multiplication by an (unmasked) scalar constant, constant on the left. -/
def mCmul (c : ℝ) (x : MVal) : MVal := x.map (fun v => c * v)

/-- Masked division: a zero denominator yields a masked cell (numpy.ma masks
the domain error instead of raising). -/
def mdiv : MVal → MVal → MVal
  | some a, some b => if b = 0 then none else some (a / b)
  | _, _ => none

/-- `numpy.ma.log`: masks non-positive arguments. -/
def mlog : MVal → MVal
  | some a => if a ≤ 0 then none else some (Real.log a)
  | none => none

/-- `numpy.ma.sqrt`: masks negative arguments. -/
def msqrt : MVal → MVal
  | some a => if a < 0 then none else some (Real.sqrt a)
  | none => none

/-- `numpy.ma.power` with a real (possibly fractional) exponent: masks a
negative base, for which the float power is invalid. -/
def mpow : MVal → ℝ → MVal
  | some a, e => if a < 0 then none else some (a ^ e)
  | none, _ => none

/-- `numpy.ma.power` with exponent 3 (used by the Butler tilt model); an
integer power is defined for every base. -/
def mcube : MVal → MVal := Option.map (fun v => v ^ (3 : ℕ))

/-- `numpy.ma.sin`. -/
def msin : MVal → MVal := Option.map Real.sin

/-- `numpy.ma.arcsin`: masks arguments outside `[-1, 1]`. -/
def marcsin : MVal → MVal
  | some a => if a < -1 ∨ 1 < a then none else some (Real.arcsin a)
  | none => none

/-- `numpy.ma.arccos`: masks arguments outside `[-1, 1]`. -/
def marccos : MVal → MVal
  | some a => if a < -1 ∨ 1 < a then none else some (Real.arccos a)
  | none => none

/-- `numpy.ma.arctan`. -/
def marctan : MVal → MVal := Option.map Real.arctan

/-- `numpy.radians`: degrees to radians, `x * pi / 180`. -/
def mradians : MVal → MVal := Option.map (fun d => d * π / 180)

/-- `numpy.degrees`: radians to degrees, `x * 180 / pi`. -/
def mdegrees : MVal → MVal := Option.map (fun r => r * 180 / π)

/-- The final clamp `x[x < 0] = 0` of each function, acting on one cell.  A
masked cell is not selected by the comparison and stays masked. -/
def mclamp : MVal → MVal
  | some v => if v < 0 then some 0 else some v
  | none => none

/-- Message of the numpy `TypeError` raised by `isnan([None])`. -/
def isnanNoneMsg : String := "ufunc isnan not supported for the input types"

/-- Wrapping of an optional scalar argument into a one-element masked array,
`ma.array([x], mask=isnan([x]))`.  For `x = None` numpy's `isnan` raises a
`TypeError`; a real number gives an unmasked cell. -/
def toMasked : Option ℝ → Except PyErr MVal
  | some x => .ok (some x)
  | none => .error (.typeError isnanNoneMsg)

/-! ### getMidFlameWS -/

/-- Error message of the `units` validation of `getMidFlameWS`. -/
def mfwUnitsMsg : String := "The \"units\" parameter must be either \"SI\" or \"IMP\""

/-- Wind-speed unit conversion of `getMidFlameWS` (source lines 85-90):
`SI` divides by `3.6 * 1.15` (10-m km/h to 20-ft m/s equivalent), `IMP`
divides by `2.23694` (mi/h to m/s). -/
def wsConvert (units : String) (ws : ℝ) : ℝ :=
  if units == "SI" then ws / (3.6 * 1.15)
  else if units == "IMP" then ws / 2.23694
  else ws

/-- Height unit conversion of `getMidFlameWS`: `SI` multiplies by `3.28084`
(m to ft), `IMP` leaves the value unchanged. -/
def htConvert (units : String) (h : ℝ) : ℝ :=
  if units == "SI" then h * 3.28084 else h

/-- Unsheltered mid-flame wind speed formula (source line 102):
`wind_speed * 1.83 / log((20 + 0.36 * H) / (0.13 * H))`. -/
def unshelteredWS (wsC H : ℝ) : MVal :=
  mdiv (some (wsC * 1.83)) (mlog (mdiv (some (20 + 0.36 * H)) (some (0.13 * H))))

/-- Sheltered mid-flame wind speed formula (source lines 104-105):
`wind_speed * 0.555 / (sqrt(f * H) * log((20 + 0.36 * H) / (0.13 * H)))`. -/
def shelteredWS (wsC fv H : ℝ) : MVal :=
  mdiv (some (wsC * 0.555))
    (mmul (msqrt (some (fv * H))) (mlog (mdiv (some (20 + 0.36 * H)) (some (0.13 * H)))))

/-- Body of `getMidFlameWS` after unit conversion (source lines 91-108):
crown ratio, sheltering factor `f`, substitution of `0.5 * 3.28084` feet for a
zero canopy height, branch on `f <= 5`, and the final clamp.  The crown ratio
is computed from the pre-substitution canopy height, so a zero canopy height
masks it (and hence `f`). -/
def mfwCore (wsC cc htC cbhC : ℝ) : MVal :=
  let crown_ratio := mdiv (some (htC - cbhC)) (some htC)
  let f := (mmul crown_ratio (some cc)).map (fun x => x / 300)
  let htR := if htC = 0 then 0.5 * 3.28084 else htC
  mclamp (match f with
    | none => none
    | some fv => if fv ≤ 5 then unshelteredWS wsC htR else shelteredWS wsC fv htR)

/-- `getMidFlameWS(wind_speed, canopy_cover, canopy_ht, canopy_baseht, units)`
(source lines 15-113, scalar path).  Numeric arguments are reals, so the
numeric wrapping cannot fail; the `units` membership check (lines 81-82) is the
only validation that can raise. -/
def getMidFlameWS (wind_speed canopy_cover canopy_ht canopy_baseht : ℝ)
    (units : String) : Except PyErr MVal :=
  if units == "SI" || units == "IMP" then
    .ok (mfwCore (wsConvert units wind_speed) canopy_cover
      (htConvert units canopy_ht) (htConvert units canopy_baseht))
  else .error (.valueError mfwUnitsMsg)

/-! ### getFlameLength -/

/-- Parameter entry `(a, b[, c])` of the flame length model catalog. -/
abbrev FLParams := ℝ × ℝ × Option ℝ

/-- The flame length model catalog `model_dict` (source lines 133-166):
28 published correlations, each a pair `(a, b)` except `Finney_HEAD`, which is
a triple `(a, b, c)`. -/
def model_dict : List (String × FLParams) := [
  ("Fons_NOWIND", (0.024018, 2/3, none)),
  ("Thomas_NOWIND", (0.026700, 2/3, none)),
  ("Yuana_NOWIND", (0.034000, 2/3, none)),
  ("Barbon_iNOWIND", (0.062000, 0.5336, none)),
  ("Nelson_BACK", (0.027973, 2/3, none)),
  ("Fernandes_BACK", (0.029000, 0.7240, none)),
  ("Clark_BACK", (0.001600, 1.7450, none)),
  ("Vega_BACK", (0.087000, 0.4930, none)),
  ("Byram_HEAD", (0.0775, 0.4600, none)),
  ("Anderson1_HEAD", (0.013876, 0.6510, none)),
  ("Anderson2_HEAD", (0.008800, 0.6700, none)),
  ("Newman_HEAD", (0.05770, 0.5000, none)),
  ("Sneewujagt_HEAD", (0.037680, 0.5000, none)),
  ("Nelson1_HEAD", (0.044230, 0.5000, none)),
  ("Clark_HEAD", (0.000722, 0.9934, none)),
  ("Nelson2_HEAD", (0.047500, 0.4930, none)),
  ("VanWilgen_HEAD", (0.046000, 0.4128, none)),
  ("Burrows_HEAD", (0.040480, 0.5740, none)),
  ("MarsdenSmedley_HEAD", (0.148, 0.403, none)),
  ("Weise1_HEAD", (0.016000, 0.7000, none)),
  ("Catchpole_HEAD", (0.032500, 0.5600, none)),
  ("Fernandes1_HEAD", (0.051600, 0.4530, none)),
  ("Butler_HEAD", (0.017500, 2/3, none)),
  ("Fernandes_HEAD", (0.045000, 0.5430, none)),
  ("Nelson3_HEAD", (0.014200, 2/3, none)),
  ("Nelson4_HEAD", (0.015500, 2/3, none)),
  ("Weise2_HEAD", (0.2000000, 0.3400, none)),
  ("Davies_HEAD", (0.220000, 0.2900, none)),
  ("Finney_HEAD", (0.01051, 0.774, some 0.161))]

/-- The model-name membership test of `getFlameLength` (source line 178):
`model not in list[model_dict.keys()]`.  The source subscripts the builtin
`list` type instead of calling it, so `list[model_dict.keys()]` is a
`types.GenericAlias`, not a list of the keys.  On Python 3.11+ (current when
the file was written) iterating the alias yields a single unpacked-alias
object, which no string equals, so the membership test is false for every
model name — valid or not — and every call takes the `ValueError` branch.
(On Python 3.10 and earlier the alias is not iterable and the same line raises
a `TypeError`; either way no call gets past this check.) -/
def flameLengthModelAccepted (_model : String) : Bool := false

/-- Message of the `ValueError` raised by the model check of `getFlameLength`
(source line 179); the source interpolates `model_dict.keys()`. -/
def flModelMsg : String := "The \"model\" parameter must be one of the model_dict keys"

/-- Return value of `getFlameLength`: the raw parameter tuple when
`params_only` is set, otherwise a flame length cell. -/
inductive FLReturn where
  | params (p : FLParams)
  | length (v : MVal)

/-- `getFlameLength(model, fire_intensity, flame_depth, params_only)`
(source lines 117-220, scalar path).  The model membership test (line 178)
fails for every name, so every call raises; the remaining code — including the
`params_only` early return, which sits after the `flame_depth` wrapping (line
195, a `TypeError` when `flame_depth` is `None`) — is unreachable but embedded
faithfully. -/
def getFlameLength (model : String) (fire_intensity : ℝ) (flame_depth : Option ℝ)
    (params_only : Bool) : Except PyErr FLReturn :=
  if !(flameLengthModelAccepted model) then .error (.valueError flModelMsg)
  else
    let fiM : MVal := some fire_intensity
    (toMasked flame_depth).bind fun fdM =>
    let mp := (model_dict.lookup model).getD (0, 0, none)
    if params_only then .ok (.params mp)
    else
      let fl : MVal :=
        if model == "Finney_HEAD" then
          mdiv (mCmul mp.1 (mpow fiM mp.2.1)) (mpow fdM ((mp.2.2).getD 0))
        else mCmul mp.1 (mpow fiM mp.2.1)
      .ok (.length (mclamp fl))

/-! ### getFlameHeight -/

/-- A `fire_type` argument of `getFlameHeight`: the symbolic tag (a string) or
a numeric code. -/
inductive FireT where
  | str (s : String)
  | num (x : ℝ)

/-- Message of the `ValueError` raised for an invalid `model` in
`getFlameHeight` (source line 265). -/
def hModelMsg : String :=
  "The \"model\" parameter must be one of the following: \"Nelson\", \"Finney\""

/-- Message of the `ValueError` for missing Nelson arguments (source line 270). -/
def nelsonReqMsg : String :=
  "The \"Nelson\" model requires \"fire_type\", \"fire_intensity\", and \"midflame_ws\" as inputs"

/-- Message of the `ValueError` for the Finney argument check of
`getFlameHeight` (source line 273). -/
def finneyHReqMsg : String :=
  "The \"Finney\" model requires \"flame_tilt\", \"slope_angle\", and \"slope_units\" as inputs"

/-- Message of the `ValueError` for an invalid `fire_type` string (source
lines 288-289). -/
def fireTypeMsg : String :=
  "The \"fire_type\" parameter must be one of the following: \"surface\", \"passive crown\", \"active crown\""

/-- Message of the `TypeError` of the `slope_units` check of `getFlameHeight`
(source line 331). -/
def suTypeMsgFH : String := "slope_units must be a str data type"

/-- Message of the `ValueError` of the `slope_units` check of `getFlameHeight`
(source line 333). -/
def suValMsgFH : String :=
  "The \"slope_units\" parameter must be one of the following: \"degrees\", \"percent\""

/-- `fire_type_dict` (source lines 247-251): converts the symbolic tag to its
integer code. -/
def fireTypeDict (s : String) : ℝ :=
  if s == "surface" then 1 else if s == "passive crown" then 2 else 3

/-- Verification and wrapping of `fire_type` (source lines 284-295): a string
outside the enumeration raises a `ValueError`; a string inside it is converted
to its integer code; `None` reaches `isnan([None])` and raises a `TypeError`;
a number is wrapped unmasked. -/
def verifyFireType : Option FireT → Except PyErr MVal
  | some (.str s) =>
      if s == "surface" || s == "passive crown" || s == "active crown" then
        .ok (some (fireTypeDict s))
      else .error (.valueError fireTypeMsg)
  | some (.num x) => .ok (some x)
  | none => .error (.typeError isnanNoneMsg)

/-- The unit-string validation of `getFlameHeight` and `getFlameTilt`
(source lines 330-333, 462-466, 476-480).  The `isinstance` test accepts
`(int, float, ndarray, NoneType)` and raises a `TypeError` otherwise — so it
raises precisely when the argument IS a string, contradicting its own message.
A surviving value (here only `None`) is then not in the enumeration list and
raises a `ValueError`.  No value can pass this check. -/
def brokenUnitsCheck (u : Option String) (tmsg vmsg : String) : Except PyErr Unit :=
  match u with
  | some _ => .error (.typeError tmsg)
  | none => .error (.valueError vmsg)

/-- `getFlameHeight(model, flame_length, fire_type, fire_intensity,
midflame_ws, flame_tilt, slope_angle, slope_units)` (source lines 224-376,
scalar path).  Note two faithfully embedded slips of the source: the Finney
missing-argument check (line 272) is `if not any(... is None ...)`, so it
rejects exactly the calls that supply all three Finney arguments; and the
`slope_units` check (lines 330-333) rejects every possible value, so neither
model branch is reachable. -/
def getFlameHeight (model : String) (flame_length : ℝ) (fire_type : Option FireT)
    (fire_intensity midflame_ws flame_tilt slope_angle : Option ℝ)
    (slope_units : Option String) : Except PyErr MVal :=
  if !(model == "Nelson" || model == "Finney") then .error (.valueError hModelMsg)
  else if model == "Nelson" &&
      (fire_type.isNone || fire_intensity.isNone || midflame_ws.isNone) then
    .error (.valueError nelsonReqMsg)
  else if model == "Finney" &&
      !(flame_tilt.isNone || slope_angle.isNone || slope_units.isNone) then
    .error (.valueError finneyHReqMsg)
  else
    let flM : MVal := some flame_length
    (verifyFireType fire_type).bind fun ftM =>
    (toMasked fire_intensity).bind fun fiM =>
    (toMasked midflame_ws).bind fun mwM =>
    (toMasked flame_tilt).bind fun tiltM =>
    (toMasked slope_angle).bind fun saM =>
    (brokenUnitsCheck slope_units suTypeMsgFH suValMsgFH).bind fun _ =>
    if model == "Nelson" then
      -- a = 1/360 for fire types 1 and 2, else 0.0175 (source lines 337-341)
      let a : MVal := ftM.bind fun v => some (if v = 1 ∨ v = 2 then (1/360 : ℝ) else 0.0175)
      -- height = flame_length when midflame_ws == 0, else a * I / ws (lines 344-346)
      let h : MVal := match mwM with
        | none => none
        | some w => if w = 0 then flM else mdiv (mmul a fiM) mwM
      -- cap at flame_length (lines 349-351)
      let height : MVal := match h, flM with
        | some hv, some flv => if flv < hv then some flv else some hv
        | _, _ => none
      .ok (mclamp height)
    else
      -- Finney branch (source lines 353-368)
      ((match slope_units with
        | some "percent" => .ok (marctan (mdiv saM (some 100)))
        | some "degrees" => .ok (mradians saM)
        | _ => .error (.exception "Unable to calculate flame height - Slope tilt") :
          Except PyErr MVal)).bind
      fun slope_rad =>
      let tilt_h := msub (some (π / 2)) (mradians tiltM)
      let height : MVal := match saM with
        | none => none
        | some s =>
          if s ≤ 1 then mmul flM (msin tilt_h)
          else mdiv (mmul flM (msin (msub tilt_h slope_rad)))
            (msin (msub (mradians (some 90)) slope_rad))
      .ok (mclamp height)

/-! ### getFlameTilt -/

/-- Message of the `ValueError` for an invalid `model` in `getFlameTilt`
(source line 424); the source lists the wrong model names in it. -/
def tModelMsg : String :=
  "The \"model\" parameter must be one of the following: \"Nelson\", \"Finney\""

/-- Message of the `ValueError` for missing Standard arguments (source 429). -/
def standardReqMsg : String :=
  "The \"Standard\" model requires \"flame_length\" and \"flame_height\" as inputs"

/-- Message of the `ValueError` for the Finney argument check of
`getFlameTilt` (source lines 432-433). -/
def finneyTReqMsg : String :=
  "The \"Finney\" model requires \"flame_length\", \"flame_height\", \"slope_angle\", and \"slope_units\" as inputs"

/-- Message of the `ValueError` for the Butler argument check (source 436). -/
def butlerReqMsg : String :=
  "The \"Butler\" model requires \"windspeed\", \"windspeed_units\", and \"canopy_ht\" as inputs"

/-- Message of the `TypeError` of the `slope_units` check of `getFlameTilt`
(source line 464). -/
def suTypeMsgFT : String := "slope_units must be a str data type"

/-- Message of the `ValueError` of the `slope_units` check of `getFlameTilt`
(source line 466). -/
def suValMsgFT : String :=
  "The \"slope_units\" parameter must be one of the following: \"degrees\", \"percent\""

/-- Message of the `TypeError` of the `wind_speed_units` check (source 478). -/
def wsuTypeMsg : String := "wind_speed_units must be a str data type"

/-- Message of the `ValueError` of the `wind_speed_units` check (source 480). -/
def wsuValMsg : String :=
  "The \"wind_speed_units\" parameter must be one of the following: \"kph\", \"mps\", \"mph"

/-- Message of the `TypeError` raised by `28 / None` in the Butler branch
(source line 514; `canopy_ht` is never wrapped by the source). -/
def chtNoneMsg : String := "unsupported operand types for div: int and NoneType"

/-- Message of the `ZeroDivisionError` raised by `28 / 0` in the Butler branch
(plain scalar division, not masked). -/
def zeroDivMsg : String := "ZeroDivisionError: division by zero"

/-- `getFlameTilt(model, flame_length, flame_height, slope_angle, slope_units,
wind_speed, wind_speed_units, canopy_ht)` (source lines 380-530, scalar path).
Faithfully embedded slips of the source: the Finney and Butler
missing-argument checks (lines 431, 435) are inverted (`if not any(...)`), so
they reject exactly the fully-supplied calls; and the `slope_units` and
`wind_speed_units` checks (lines 462-466, 476-480) reject every possible
value, so no model branch is reachable. -/
def getFlameTilt (model : String) (flame_length flame_height slope_angle : Option ℝ)
    (slope_units : Option String) (wind_speed : Option ℝ)
    (wind_speed_units : Option String) (canopy_ht : Option ℝ) : Except PyErr MVal :=
  if !(model == "Standard" || model == "Finney" || model == "Butler") then
    .error (.valueError tModelMsg)
  else if model == "Standard" && (flame_length.isNone || flame_height.isNone) then
    .error (.valueError standardReqMsg)
  else if model == "Finney" &&
      !(flame_length.isNone || flame_height.isNone || slope_angle.isNone ||
        slope_units.isNone) then
    .error (.valueError finneyTReqMsg)
  else if model == "Butler" &&
      !(wind_speed.isNone || wind_speed_units.isNone || canopy_ht.isNone) then
    .error (.valueError butlerReqMsg)
  else
    (toMasked flame_length).bind fun flM =>
    (toMasked flame_height).bind fun fhM =>
    (toMasked slope_angle).bind fun saM =>
    (brokenUnitsCheck slope_units suTypeMsgFT suValMsgFT).bind fun _ =>
    (toMasked wind_speed).bind fun wsM =>
    (brokenUnitsCheck wind_speed_units wsuTypeMsg wsuValMsg).bind fun _ =>
    if model == "Standard" then
      -- tilt_v = arccos(flame_height / flame_length) (source line 484)
      .ok (mdegrees (mclamp (marccos (mdiv fhM flM))))
    else if model == "Finney" then
      -- Finney branch (source lines 485-500)
      ((match slope_units with
        | some "percent" => .ok (marctan (mdiv saM (some 100)))
        | some "degrees" => .ok (mradians saM)
        | _ => .error (.exception "Unable to calculate flame tilt - Invalid slope units provided") :
          Except PyErr MVal)).bind
      fun slope_rad =>
      let tilt_h := madd
        (marcsin (mradians (mdiv
          (mmul fhM (mdegrees (msin (msub (mradians (some 90)) slope_rad)))) flM)))
        slope_rad
      let tilt_v : MVal := match fhM, flM with
        | some a, some b => if a = b then some 0 else msub (some (π / 2)) tilt_h
        | _, _ => none
      .ok (mdegrees (mclamp tilt_v))
    else
      -- Butler branch (source lines 502-521); canopy_ht is used raw, so `None`
      -- raises a TypeError and 0 a ZeroDivisionError at `28 / canopy_ht`.
      ((match canopy_ht with
        | none => .error (.typeError chtNoneMsg)
        | some c => if c = 0 then .error (.exception zeroDivMsg) else .ok c :
          Except PyErr ℝ)).bind
      fun chtV =>
      let wsC : MVal :=
        if wind_speed_units == some "kph" then wsM.map (fun v => v / 3.6)
        else if wind_speed_units == some "mph" then wsM.map (fun v => v / 2.23694)
        else wsM
      let uc := mdiv wsC ((mlog (some (1 + 28 / chtV))).map (fun l => 3.6 * (1 + l)))
      .ok (mdegrees (mclamp (marctan (msqrt
        (mdiv (mCmul 3 (mcube uc)) (some (2 * 9.81 * 10)))))))

/-! ### getFlameResidenceTime -/

/-- `getFlameResidenceTime(ros, fuel_consumption, midflame_ws, units)`
(source lines 534-589, scalar path).  Note that the source never validates
`units`: it is only compared against `"min"` (line 579), so any other string
behaves like `"sec"`. -/
def getFlameResidenceTime (ros fuel_consumption midflame_ws : ℝ)
    (units : String) : Except PyErr MVal :=
  let res0 := mdiv
    (mmul (mCmul 0.39 (mpow (some fuel_consumption) 0.25)) (mpow (some midflame_ws) 1.51))
    (some (ros / 60))
  let res1 := if units == "min" then res0.map (fun v => v / 60) else res0
  .ok (mclamp res1)

/-! ### getFlameDepth -/

/-- `getFlameDepth(ros, res_time)` (source lines 593-635, scalar path):
`ros * res_time`, clamped to be nonnegative. -/
def getFlameDepth (ros res_time : ℝ) : Except PyErr MVal :=
  .ok (mclamp (mmul (some ros) (some res_time)))

end

/-! ## Helper lemmas -/

lemma mclamp_some_of_nonneg {v : ℝ} (h : 0 ≤ v) : mclamp (some v) = some v := by
  simp [mclamp, not_lt.mpr h]

lemma getMidFlameWS_valid (ws cc ht cbh : ℝ) (u : String) (hu : u = "SI" ∨ u = "IMP") :
    getMidFlameWS ws cc ht cbh u
      = .ok (mfwCore (wsConvert u ws) cc (htConvert u ht) (htConvert u cbh)) := by
  rcases hu with h | h <;> subst h <;> rfl

lemma wsConvert_SI (w : ℝ) : wsConvert "SI" w = w / (3.6 * 1.15) := rfl

lemma wsConvert_IMP (w : ℝ) : wsConvert "IMP" w = w / 2.23694 := rfl

lemma htConvert_SI (h : ℝ) : htConvert "SI" h = h * 3.28084 := rfl

lemma htConvert_IMP (h : ℝ) : htConvert "IMP" h = h := rfl

lemma unshelteredWS_eval (wsC H : ℝ) (hH : 0.13 * H ≠ 0)
    (hpos : 0 < (20 + 0.36 * H) / (0.13 * H)) (hne1 : (20 + 0.36 * H) / (0.13 * H) ≠ 1) :
    unshelteredWS wsC H = some (wsC * 1.83 / Real.log ((20 + 0.36 * H) / (0.13 * H))) := by
  have hlog : Real.log ((20 + 0.36 * H) / (0.13 * H)) ≠ 0 := by
    intro h
    rcases Real.log_eq_zero.mp h with h0 | h1 | hm
    · exact absurd h0 (ne_of_gt hpos)
    · exact hne1 h1
    · rw [hm] at hpos; norm_num at hpos
  simp only [unshelteredWS, mdiv, mlog, if_neg hH, if_neg (not_le.mpr hpos), if_neg hlog]

lemma mfwCore_unsheltered (wsC cc htC cbhC : ℝ) (hht : htC ≠ 0)
    (hf : (htC - cbhC) / htC * cc / 300 ≤ 5) :
    mfwCore wsC cc htC cbhC = mclamp (unshelteredWS wsC htC) := by
  unfold mfwCore
  simp only [mdiv, mmul, if_neg hht, Option.map]
  rw [if_pos hf]

lemma getMidFlameWS_unsheltered (ws cc ht cbh : ℝ) (u : String) (hu : u = "SI" ∨ u = "IMP")
    (hht : htConvert u ht ≠ 0)
    (hf : (htConvert u ht - htConvert u cbh) / htConvert u ht * cc / 300 ≤ 5) :
    getMidFlameWS ws cc ht cbh u
      = .ok (mclamp (unshelteredWS (wsConvert u ws) (htConvert u ht))) := by
  rw [getMidFlameWS_valid ws cc ht cbh u hu, mfwCore_unsheltered _ _ _ _ hht hf]

lemma mclamp_map_scale {a : ℝ} (ha : 0 < a) (x : MVal) :
    mclamp (x.map (fun z => a * z)) = (mclamp x).map (fun z => a * z) := by
  rcases x with _ | v
  · rfl
  · by_cases hv : v < 0
    · have h2 : a * v < 0 := mul_neg_of_pos_of_neg ha hv
      simp [mclamp, hv, h2]
    · have h2 : ¬ a * v < 0 := by
        push_neg at hv ⊢
        exact mul_nonneg ha.le hv
      simp [mclamp, hv, h2]

lemma unsheltered_scale (a wsC H : ℝ) :
    unshelteredWS (a * wsC) H = (unshelteredWS wsC H).map (fun z => a * z) := by
  unfold unshelteredWS
  rcases hL : mlog (mdiv (some (20 + 0.36 * H)) (some (0.13 * H))) with _ | l
  · rfl
  · by_cases hl : l = 0
    · simp [mdiv, hl]
    · simp only [mdiv, if_neg hl, Option.map]
      congr 1
      ring

lemma sheltered_scale (a wsC fv H : ℝ) :
    shelteredWS (a * wsC) fv H = (shelteredWS wsC fv H).map (fun z => a * z) := by
  unfold shelteredWS
  rcases hD : mmul (msqrt (some (fv * H)))
      (mlog (mdiv (some (20 + 0.36 * H)) (some (0.13 * H)))) with _ | d
  · rfl
  · by_cases hd : d = 0
    · simp [mdiv, hd]
    · simp only [mdiv, if_neg hd, Option.map]
      congr 1
      ring

lemma mfwCore_scale (a : ℝ) (ha : 0 < a) (wsC cc htC cbhC : ℝ) :
    mfwCore (a * wsC) cc htC cbhC = (mfwCore wsC cc htC cbhC).map (fun z => a * z) := by
  unfold mfwCore
  rcases hcr : mdiv (some (htC - cbhC)) (some htC) with _ | c
  · simp [mmul, mclamp]
  · simp only [mmul, Option.map]
    by_cases hf : c * cc / 300 ≤ 5
    · rw [if_pos hf, if_pos hf, unsheltered_scale, mclamp_map_scale ha]
      cases mclamp (unshelteredWS wsC (if htC = 0 then 0.5 * 3.28084 else htC)) <;> rfl
    · rw [if_neg hf, if_neg hf, sheltered_scale, mclamp_map_scale ha]
      cases mclamp (shelteredWS wsC (c * cc / 300) (if htC = 0 then 0.5 * 3.28084 else htC)) <;>
        rfl

lemma getFlameResidenceTime_eval (ros fc ws : ℝ) (u : String) (hu : (u == "min") = false)
    (hfc : ¬ fc < 0) (hws : ¬ ws < 0) (h60 : ¬ ros / 60 = 0) :
    getFlameResidenceTime ros fc ws u
      = .ok (mclamp (some (0.39 * fc ^ (0.25:ℝ) * ws ^ (1.51:ℝ) / (ros / 60)))) := by
  simp only [getFlameResidenceTime, mpow, mCmul, mmul, mdiv, Option.map, if_neg hfc,
    if_neg hws, if_neg h60, hu, Bool.false_eq_true, if_false]

/-! ## Claim theorems -/

/-- C1: the claim says that for every valid catalog key `getFlameLength`
returns the documented parameter tuple (with `params_only`) or the power-law
flame length; in fact the broken membership test `model not in
list[model_dict.keys()]` rejects every model name, so every call — including
`getFlameLength("Byram_HEAD", 1000)` — raises a `ValueError` and neither a
parameter tuple nor a length is ever returned. -/
theorem flame_c1_thm (model : String) (fire_intensity : ℝ) (flame_depth : Option ℝ)
    (params_only : Bool) :
    getFlameLength model fire_intensity flame_depth params_only
      = Except.error (PyErr.valueError flModelMsg) := rfl

/-- C2: the claim says a Finney `getFlameHeight` call (or a Finney/Butler
`getFlameTilt` call) missing a required argument raises the missing-argument
`ValueError`, and a fully-supplied call passes that check.  The source has the
check inverted (`if not any(... is None ...)`): fully-supplied calls are
rejected with the missing-argument `ValueError` (conjuncts 1, 3, 5), while
calls with a missing argument slip past it and instead die later with a numpy
`TypeError` from `isnan([None])` (conjuncts 2, 4, 6). -/
theorem flame_c2_thm :
    getFlameHeight "Finney" 2 none none none (some 10) (some 5) (some "degrees")
      = Except.error (PyErr.valueError finneyHReqMsg) ∧
    getFlameHeight "Finney" 2 none none none none (some 5) (some "degrees")
      = Except.error (PyErr.typeError isnanNoneMsg) ∧
    getFlameTilt "Butler" none none none none (some 10) (some "kph") (some 15)
      = Except.error (PyErr.valueError butlerReqMsg) ∧
    getFlameTilt "Butler" none none none none none (some "kph") (some 15)
      = Except.error (PyErr.typeError isnanNoneMsg) ∧
    getFlameTilt "Finney" (some 4) (some 2) (some 10) (some "degrees") none none none
      = Except.error (PyErr.valueError finneyTReqMsg) ∧
    getFlameTilt "Finney" none (some 2) (some 10) (some "degrees") none none none
      = Except.error (PyErr.typeError isnanNoneMsg) :=
  ⟨rfl, rfl, rfl, rfl, rfl, rfl⟩

/-- C3 counterexample: the claim says
`getFlameResidenceTime(ros, fc, ws, units="XX")` raises a `ValueError` rather
than returning a number; in fact the source never validates `units` and the
call returns the seconds-value. -/
theorem flame_c3_cex : ∃ v : ℝ, getFlameResidenceTime 60 2 1 "XX" = Except.ok (some v) := by
  refine ⟨0.39 * (2:ℝ) ^ (0.25:ℝ) * (1:ℝ) ^ (1.51:ℝ) / (60 / 60), ?_⟩
  rw [getFlameResidenceTime_eval 60 2 1 "XX" rfl (by norm_num) (by norm_num) (by norm_num),
    mclamp_some_of_nonneg]
  positivity

/-- C3 (amended): `getMidFlameWS` does reject an out-of-enumeration units
string with a `ValueError` before any computation; `getFlameResidenceTime`
performs no units validation at all and treats any units other than `"min"`
exactly like `"sec"`; and the `slope_units` / `wind_speed_units` checks of
`getFlameHeight` and `getFlameTilt` reject an out-of-enumeration string (like
every string) with a `TypeError`, not a `ValueError`. -/
theorem flame_c3_thm :
    (∀ ws cc ht cbh : ℝ,
      getMidFlameWS ws cc ht cbh "XX" = Except.error (PyErr.valueError mfwUnitsMsg)) ∧
    (∀ ros fc ws : ℝ,
      getFlameResidenceTime ros fc ws "XX" = getFlameResidenceTime ros fc ws "sec") ∧
    (∀ (fl k fi mw t sa : ℝ),
      getFlameHeight "Nelson" fl (some (.num k)) (some fi) (some mw) (some t) (some sa)
        (some "XX") = Except.error (PyErr.typeError suTypeMsgFH)) ∧
    (∀ (fl fh sa : ℝ) (ws : Option ℝ) (wsu : Option String) (cht : Option ℝ),
      getFlameTilt "Standard" (some fl) (some fh) (some sa) (some "XX") ws wsu cht
        = Except.error (PyErr.typeError suTypeMsgFT)) :=
  ⟨fun _ _ _ _ => rfl, fun _ _ _ => rfl, fun _ _ _ _ _ _ => rfl, fun _ _ _ _ _ _ => rfl⟩

/-- C4: the claim describes the Nelson flame-height formula (constant `a`,
`a * I / ws` with the `ws = 0` case, capped at flame length).  That formula
does appear in the source (lines 335-351) but is unreachable: the
`slope_units` check rejects every value regardless of model, and the defaulted
Finney numerics raise a numpy `TypeError` even earlier, so every Nelson call
raises an exception instead of returning the claimed height.  The second
conjunct evaluates the claimed failing input. -/
theorem flame_c4_thm :
    (∀ (fl : ℝ) (ft : Option FireT) (fi mw t sa : Option ℝ) (su : Option String),
      ∃ e, getFlameHeight "Nelson" fl ft fi mw t sa su = Except.error e) ∧
    getFlameHeight "Nelson" 10 (some (.num 1)) (some 3600) (some 2) none none none
      = Except.error (PyErr.typeError isnanNoneMsg) := by
  refine ⟨?_, rfl⟩
  intro fl ft fi mw t sa su
  rcases ft with _ | (s | k)
  · exact ⟨_, rfl⟩
  · rcases fi with _ | fi
    · exact ⟨_, rfl⟩
    · rcases mw with _ | mw
      · exact ⟨_, rfl⟩
      · by_cases hb : (s == "surface" || s == "passive crown" || s == "active crown") = true
        · rcases t with _ | t
          · exact ⟨.typeError isnanNoneMsg,
              by simp [getFlameHeight, verifyFireType, hb, toMasked, Except.bind]⟩
          · rcases sa with _ | sa
            · exact ⟨.typeError isnanNoneMsg,
                by simp [getFlameHeight, verifyFireType, hb, toMasked, Except.bind]⟩
            · rcases su with _ | su
              · exact ⟨.valueError suValMsgFH,
                  by simp [getFlameHeight, verifyFireType, hb, toMasked, brokenUnitsCheck,
                    Except.bind]⟩
              · exact ⟨.typeError suTypeMsgFH,
                  by simp [getFlameHeight, verifyFireType, hb, toMasked, brokenUnitsCheck,
                    Except.bind]⟩
        · refine ⟨.valueError fireTypeMsg, ?_⟩
          simp only [Bool.or_eq_true, beq_iff_eq, not_or] at hb
          obtain ⟨⟨h1, h2⟩, h3⟩ := hb
          simp [getFlameHeight, verifyFireType, h1, h2, h3, toMasked, Except.bind]
  · rcases fi with _ | fi
    · exact ⟨_, rfl⟩
    · rcases mw with _ | mw
      · exact ⟨_, rfl⟩
      · rcases t with _ | t
        · exact ⟨_, rfl⟩
        · rcases sa with _ | sa
          · exact ⟨_, rfl⟩
          · rcases su with _ | su <;> exact ⟨_, rfl⟩

/-- C5 counterexample: the claim says
`getMidFlameWS(20, cc, ht, cbh, "IMP")` equals
`getMidFlameWS(20 * 1.60934, cc, ht / 3.28084, cbh / 3.28084, "SI")` within
floating-point tolerance; at `cc = 0, ht = 10, cbh = 0` the two results exist
and differ by more than 0.1 (in exact real arithmetic the ratio is the
constant `4.14 / (1.60934 * 2.23694) ≈ 1.15`). -/
theorem flame_c5_cex : ∃ y z : ℝ,
    getMidFlameWS 20 0 10 0 "IMP" = Except.ok (some y) ∧
    getMidFlameWS (20 * 1.60934) 0 (10 / 3.28084) (0 / 3.28084) "SI" = Except.ok (some z) ∧
    z + 1 / 10 < y := by
  have hLpos : 0 < Real.log ((20 + 0.36 * 10) / (0.13 * 10)) := Real.log_pos (by norm_num)
  have hLle : Real.log ((20 + 0.36 * 10) / (0.13 * 10)) ≤ (20 + 0.36 * 10) / (0.13 * 10) - 1 :=
    Real.log_le_sub_one_of_pos (by norm_num)
  refine ⟨20 / 2.23694 * 1.83 / Real.log ((20 + 0.36 * 10) / (0.13 * 10)),
    20 * 1.60934 / (3.6 * 1.15) * 1.83 / Real.log ((20 + 0.36 * 10) / (0.13 * 10)),
    ?_, ?_, ?_⟩
  · rw [getMidFlameWS_valid _ _ _ _ _ (Or.inr rfl), wsConvert_IMP, htConvert_IMP, htConvert_IMP,
      mfwCore_unsheltered _ _ _ _ (by norm_num) (by norm_num),
      unshelteredWS_eval _ _ (by norm_num) (by norm_num) (by norm_num),
      mclamp_some_of_nonneg (div_nonneg (by norm_num) hLpos.le)]
  · rw [getMidFlameWS_valid _ _ _ _ _ (Or.inl rfl), wsConvert_SI, htConvert_SI, htConvert_SI,
      div_mul_cancel₀ _ (by norm_num : (3.28084:ℝ) ≠ 0), zero_div, zero_mul,
      mfwCore_unsheltered _ _ _ _ (by norm_num) (by norm_num),
      unshelteredWS_eval _ _ (by norm_num) (by norm_num) (by norm_num),
      mclamp_some_of_nonneg (div_nonneg (by norm_num) hLpos.le)]
  · have key : 1 / 10 < (20 / 2.23694 * 1.83 - 20 * 1.60934 / (3.6 * 1.15) * 1.83) /
        Real.log ((20 + 0.36 * 10) / (0.13 * 10)) := by
      rw [lt_div_iff₀ hLpos]
      nlinarith [hLle]
    rw [sub_div] at key
    linarith [key]

/-- C5 (amended): the IMP call does not equal the SI call; it equals the SI
call scaled by the exact constant `4.14 / (1.60934 * 2.23694) ≈ 1.1500010`:
the IMP input is a 20-ft wind while the SI input is a 10-m wind, which the
source divides by the extra factor 1.15 (and the conversion constants
`1.60934` and `2.23694` are not exact reciprocals modulo 3.6). -/
theorem flame_c5_thm (w cc ht cbh : ℝ) :
    Except.map (fun v => v.map (fun z => 4.14 / (1.60934 * 2.23694) * z))
      (getMidFlameWS (w * 1.60934) cc (ht / 3.28084) (cbh / 3.28084) "SI")
      = getMidFlameWS w cc ht cbh "IMP" := by
  rw [getMidFlameWS_valid _ _ _ _ _ (Or.inl rfl), getMidFlameWS_valid _ _ _ _ _ (Or.inr rfl),
    wsConvert_SI, wsConvert_IMP, htConvert_SI, htConvert_SI, htConvert_IMP, htConvert_IMP,
    div_mul_cancel₀ _ (by norm_num : (3.28084:ℝ) ≠ 0),
    div_mul_cancel₀ _ (by norm_num : (3.28084:ℝ) ≠ 0)]
  have harg : w / 2.23694 = 4.14 / (1.60934 * 2.23694) * (w * 1.60934 / (3.6 * 1.15)) := by
    field_simp
    ring
  rw [harg, mfwCore_scale _ (by norm_num)]
  rfl

/-- C6: the claim says a validated Finney `getFlameTilt` call with
`flame_height = flame_length` returns 0.  The zero-on-equality branch does
appear in the source (lines 497-500) but is unreachable: the inverted Finney
missing-argument check rejects every fully-supplied call (second conjunct,
at `flame_height = flame_length = 5`), and every other Finney call dies at a
missing-argument wrap or at the `slope_units` check, so every Finney call
raises (first conjunct) and no tilt is ever returned. -/
theorem flame_c6_thm :
    (∀ (fl fh sa : Option ℝ) (su : Option String) (ws : Option ℝ) (wsu : Option String)
      (cht : Option ℝ), ∃ e, getFlameTilt "Finney" fl fh sa su ws wsu cht = Except.error e) ∧
    getFlameTilt "Finney" (some 5) (some 5) (some 10) (some "degrees") none none none
      = Except.error (PyErr.valueError finneyTReqMsg) := by
  refine ⟨?_, rfl⟩
  intro fl fh sa su ws wsu cht
  rcases fl with _ | fl <;> rcases fh with _ | fh <;> rcases sa with _ | sa <;>
    rcases su with _ | su <;> exact ⟨_, rfl⟩

/-- C7: `getMidFlameWS` with `canopy_ht = 0` does not raise for either unit
system: the call returns normally.  (The zero canopy height masks the
crown-ratio division, so the returned cell is the masked/undefined value
`none`; the `0.5 * 3.28084` substitution happens before the logarithmic term,
and no division by zero aborts the call.) -/
theorem flame_c7_thm (ws cc cbh : ℝ) :
    getMidFlameWS ws cc 0 cbh "SI" = Except.ok none ∧
    getMidFlameWS ws cc 0 cbh "IMP" = Except.ok none := by
  constructor
  · rw [getMidFlameWS_valid _ _ _ _ _ (Or.inl rfl)]
    simp [mfwCore, mdiv, mmul, mclamp, htConvert_SI]
  · rw [getMidFlameWS_valid _ _ _ _ _ (Or.inr rfl)]
    simp [mfwCore, mdiv, mmul, mclamp, htConvert_IMP]

/-- C8: for `ros > 0`, `fuel_consumption ≥ 0`, `midflame_ws ≥ 0`,
`getFlameResidenceTime` returns
`0.39 * fc^0.25 * ws^1.51 / (ros / 60)` for `units = "sec"`, that value
divided by 60 for `units = "min"`, and the value is nonnegative (so the final
clamp leaves it unchanged). -/
theorem flame_c8_thm (ros fc ws : ℝ) (hros : 0 < ros) (hfc : 0 ≤ fc) (hws : 0 ≤ ws) :
    getFlameResidenceTime ros fc ws "sec"
      = Except.ok (some (0.39 * fc ^ (0.25:ℝ) * ws ^ (1.51:ℝ) / (ros / 60))) ∧
    getFlameResidenceTime ros fc ws "min"
      = Except.ok (some (0.39 * fc ^ (0.25:ℝ) * ws ^ (1.51:ℝ) / (ros / 60) / 60)) ∧
    0 ≤ 0.39 * fc ^ (0.25:ℝ) * ws ^ (1.51:ℝ) / (ros / 60) := by
  have h60 : ¬ ros / 60 = 0 := by positivity
  have hval : 0 ≤ 0.39 * fc ^ (0.25:ℝ) * ws ^ (1.51:ℝ) / (ros / 60) :=
    div_nonneg (mul_nonneg (mul_nonneg (by norm_num) (Real.rpow_nonneg hfc _))
      (Real.rpow_nonneg hws _)) (div_nonneg hros.le (by norm_num))
  refine ⟨?_, ?_, hval⟩
  · rw [getFlameResidenceTime_eval ros fc ws "sec" rfl (not_lt.mpr hfc) (not_lt.mpr hws) h60,
      mclamp_some_of_nonneg hval]
  · simp only [getFlameResidenceTime, mpow, mCmul, mmul, mdiv, Option.map,
      if_neg (not_lt.mpr hfc), if_neg (not_lt.mpr hws), if_neg h60]
    rw [if_pos (beq_self_eq_true "min"),
      mclamp_some_of_nonneg (div_nonneg hval (by norm_num : (0:ℝ) ≤ 60))]

/-- C8 witness: the hypotheses of `flame_c8_thm` hold at
`(ros, fc, ws) = (60, 2, 1)` and the claimed end-to-end example follows:
`getFlameResidenceTime(60, 2, 1, "sec") = 0.39 * 2^0.25 * 1^1.51 / (60/60)`. -/
theorem flame_c8_w :
    (0:ℝ) < 60 ∧ (0:ℝ) ≤ 2 ∧ (0:ℝ) ≤ 1 ∧
    getFlameResidenceTime 60 2 1 "sec"
      = Except.ok (some (0.39 * (2:ℝ) ^ (0.25:ℝ) * (1:ℝ) ^ (1.51:ℝ) / (60 / 60))) :=
  ⟨by norm_num, by norm_num, by norm_num,
    (flame_c8_thm 60 2 1 (by norm_num) (by norm_num) (by norm_num)).1⟩

/-- C9 counterexample: the claim's domain `0 ≤ canopy_baseht ≤ canopy_ht`
admits `canopy_ht = 0`, where the crown-ratio division is masked, the branch
condition `f <= 5` does not hold (its value is masked), and the call returns
the masked cell `none` — not the value of the unsheltered formula, which is an
unmasked number at the substituted height. -/
theorem flame_c9_cex :
    getMidFlameWS 1 50 0 0 "IMP" = Except.ok none ∧
    (∃ v : ℝ, mclamp (unshelteredWS (wsConvert "IMP" 1) (0.5 * 3.28084)) = some v) ∧
    (0:ℝ) ≤ 50 ∧ (50:ℝ) ≤ 100 ∧ (0:ℝ) ≤ 0 := by
  have hLpos : 0 < Real.log ((20 + 0.36 * (0.5 * 3.28084)) / (0.13 * (0.5 * 3.28084))) :=
    Real.log_pos (by norm_num)
  refine ⟨?_, ?_, by norm_num, by norm_num, le_refl 0⟩
  · rw [getMidFlameWS_valid _ _ _ _ _ (Or.inr rfl)]
    simp [mfwCore, mdiv, mmul, mclamp, htConvert_IMP]
  · refine ⟨1 / 2.23694 * 1.83 /
      Real.log ((20 + 0.36 * (0.5 * 3.28084)) / (0.13 * (0.5 * 3.28084))), ?_⟩
    rw [wsConvert_IMP, unshelteredWS_eval _ _ (by norm_num) (by norm_num) (by norm_num),
      mclamp_some_of_nonneg (div_nonneg (by norm_num) hLpos.le)]

/-- C9 (amended): for canopy cover in `[0, 100]`, `0 ≤ canopy_baseht ≤
canopy_ht` and `canopy_ht > 0`, the sheltering factor is at most `1/3`, so the
branch condition `f <= 5` always holds and the result is computed with the
unsheltered formula; the sheltered formula is unreachable on this domain. -/
theorem flame_c9_thm (ws cc ht cbh : ℝ) (u : String) (hu : u = "SI" ∨ u = "IMP")
    (hcc0 : 0 ≤ cc) (hcc1 : cc ≤ 100) (hcbh : 0 ≤ cbh) (hle : cbh ≤ ht) (hht : 0 < ht) :
    (htConvert u ht - htConvert u cbh) / htConvert u ht * cc / 300 ≤ 1 / 3 ∧
    getMidFlameWS ws cc ht cbh u
      = Except.ok (mclamp (unshelteredWS (wsConvert u ws) (htConvert u ht))) := by
  have hhtC : 0 < htConvert u ht := by
    rcases hu with h | h <;> subst h
    · rw [htConvert_SI]; exact mul_pos hht (by norm_num)
    · rw [htConvert_IMP]; exact hht
  have hcbhC : 0 ≤ htConvert u cbh := by
    rcases hu with h | h <;> subst h
    · rw [htConvert_SI]; exact mul_nonneg hcbh (by norm_num)
    · rw [htConvert_IMP]; exact hcbh
  have hleC : htConvert u cbh ≤ htConvert u ht := by
    rcases hu with h | h <;> subst h
    · rw [htConvert_SI, htConvert_SI]; exact mul_le_mul_of_nonneg_right hle (by norm_num)
    · rw [htConvert_IMP, htConvert_IMP]; exact hle
  have hcr1 : (htConvert u ht - htConvert u cbh) / htConvert u ht ≤ 1 := by
    rw [div_le_one hhtC]; linarith
  have hcr0 : 0 ≤ (htConvert u ht - htConvert u cbh) / htConvert u ht :=
    div_nonneg (by linarith) hhtC.le
  have hprod : (htConvert u ht - htConvert u cbh) / htConvert u ht * cc ≤ 100 := by
    calc (htConvert u ht - htConvert u cbh) / htConvert u ht * cc ≤ 1 * 100 :=
          mul_le_mul hcr1 hcc1 hcc0 zero_le_one
      _ = 100 := by norm_num
  have hf13 : (htConvert u ht - htConvert u cbh) / htConvert u ht * cc / 300 ≤ 1 / 3 := by
    linarith
  exact ⟨hf13, getMidFlameWS_unsheltered ws cc ht cbh u hu hhtC.ne'
    (hf13.trans (by norm_num))⟩

/-- C9 witness: the hypotheses of `flame_c9_thm` hold at
`(ws, cc, ht, cbh, units) = (2, 50, 10, 2, "IMP")` and the unsheltered-branch
conclusion follows there. -/
theorem flame_c9_w :
    (htConvert "IMP" 10 - htConvert "IMP" 2) / htConvert "IMP" 10 * 50 / 300 ≤ 1 / 3 ∧
    getMidFlameWS 2 50 10 2 "IMP"
      = Except.ok (mclamp (unshelteredWS (wsConvert "IMP" 2) (htConvert "IMP" 10))) :=
  flame_c9_thm 2 50 10 2 "IMP" (Or.inr rfl) (by norm_num) (by norm_num) (by norm_num)
    (by norm_num) (by norm_num)

/-- C10 counterexample: the claim says every `getFlameHeight` call leaving
`slope_units` at its default `None` raises a value error.  The natural Nelson
call (all Finney-only parameters left at their defaults) instead raises a
numpy `TypeError` at the wrapping of the defaulted `flame_tilt`, before the
`slope_units` check is reached. -/
theorem flame_c10_cex :
    getFlameHeight "Nelson" 10 (some (.num 1)) (some 100) (some 1) none none none
      = Except.error (PyErr.typeError isnanNoneMsg) := rfl

/-- C10 (amended): `getFlameHeight` and `getFlameTilt` validate the
unit-string parameters unconditionally, regardless of the selected model, and
every call leaving them at their defaults raises — but the error class varies:
the `slope_units` check raises its `ValueError` only when the other optional
numerics are supplied (conjuncts 1, 3); when they are also left `None`, a
numpy `TypeError` fires first at their wrapping (conjuncts 2, 4). -/
theorem flame_c10_thm :
    (∀ (fl k fi mw t sa : ℝ),
      getFlameHeight "Nelson" fl (some (.num k)) (some fi) (some mw) (some t) (some sa) none
        = Except.error (PyErr.valueError suValMsgFH)) ∧
    (∀ (fl k fi mw : ℝ),
      getFlameHeight "Nelson" fl (some (.num k)) (some fi) (some mw) none none none
        = Except.error (PyErr.typeError isnanNoneMsg)) ∧
    (∀ (fl fh sa : ℝ),
      getFlameTilt "Standard" (some fl) (some fh) (some sa) none none none none
        = Except.error (PyErr.valueError suValMsgFT)) ∧
    (∀ (fl fh : ℝ),
      getFlameTilt "Standard" (some fl) (some fh) none none none none none
        = Except.error (PyErr.typeError isnanNoneMsg)) :=
  ⟨fun _ _ _ _ _ _ => rfl, fun _ _ _ _ => rfl, fun _ _ _ => rfl, fun _ _ => rfl⟩
